import Mathlib

/-!
Verification of the tile filter/sort/masonry subsystem of the
Avery2.github.io portfolio site.  The JavaScript sources embedded here are
`js/filter-system.js` (evaluateFilters, getTileDataFromElement, sortTiles),
`js/data-loader.js` (mergeData), `js/tile-renderer.js`
(calculateMasonryLayout, reorderForColumns) and the call sites in
`js/main.js`.  Machine integers are modelled as `Int`; the JavaScript `NaN`
that `parseInt` can produce is modelled as `none : Option Int`; fractional
pixel measurements are modelled as `ℚ`.
-/

namespace Site

/-- JavaScript `x || d` for an optional string `x`: `undefined` and the
empty string are falsy, any other string is returned unchanged. -/
def jsOrStr (x : Option String) (d : String) : String :=
  match x with
  | none => d
  | some s => if s = "" then d else s

/-- JavaScript `x || d` for an optional integer `x`: `undefined`/`NaN`
(modelled as `none`) and `0` are falsy. -/
def jsOrInt (x : Option Int) (d : Int) : Int :=
  match x with
  | none => d
  | some n => if n = 0 then d else n

/-- JavaScript `x || []` for an optional array. -/
def jsOrList (x : Option (List α)) : List α := x.getD []

/-- Lowercasing as used by `String.prototype.toLowerCase` (the code only
ever lowercases ASCII tag/title text, so `Char.toLower` is an adequate
model). -/
def jsToLower (s : String) : String := String.mk (s.data.map Char.toLower)

/-- Decimal digit run to a natural number. -/
def digitsToNat (ds : List Char) : Nat :=
  ds.foldl (fun n c => n * 10 + (c.toNat - '0'.toNat)) 0

/-- JavaScript `parseInt(s)` restricted to the base-10 forms this code
stores (optional sign, decimal digits; the hexadecimal `0x` prefix form is
never produced by the site and is not modelled).  `none` models `NaN`. -/
def parseIntJS (s : String) : Option Int :=
  let cs := s.data.dropWhile Char.isWhitespace
  match cs with
  | '-' :: rest =>
    let ds := rest.takeWhile Char.isDigit
    if ds.isEmpty then none else some (-(digitsToNat ds : Int))
  | '+' :: rest =>
    let ds := rest.takeWhile Char.isDigit
    if ds.isEmpty then none else some (digitsToNat ds : Int)
  | _ =>
    let ds := cs.takeWhile Char.isDigit
    if ds.isEmpty then none else some (digitsToNat ds : Int)

/-- Skip JSON whitespace. -/
def skipWs (cs : List Char) : List Char :=
  cs.dropWhile (fun c => c = ' ' || c = '\t' || c = '\n' || c = '\r')

/-- JSON string escape codes (`\uXXXX` is never produced by
`JSON.stringify` for the ASCII tags this site stores and is not modelled). -/
def unescape (c : Char) : Option Char :=
  if c = '"' then some '"'
  else if c = '\\' then some '\\'
  else if c = '/' then some '/'
  else if c = 'n' then some '\n'
  else if c = 't' then some '\t'
  else if c = 'r' then some '\r'
  else if c = 'b' then some (Char.ofNat 8)
  else if c = 'f' then some (Char.ofNat 12)
  else none

/-- Parse the body of a JSON string (the opening quote already consumed);
returns the decoded characters and the remaining input. -/
def parseStringBody : List Char → Option (List Char × List Char)
  | [] => none
  | '"' :: rest => some ([], rest)
  | '\\' :: c :: rest =>
    match unescape c, parseStringBody rest with
    | some e, some (s, r) => some (e :: s, r)
    | _, _ => none
  | c :: rest =>
    match parseStringBody rest with
    | some (s, r) => some (c :: s, r)
    | none => none

/-- Parse the comma-separated items of a JSON string array, positioned
after the opening `[`.  `fuel` bounds the recursion by the input length. -/
def parseItems : Nat → List Char → Except String (List String × List Char)
  | 0, _ => .error "SyntaxError: unexpected end of JSON input"
  | fuel + 1, cs =>
    match skipWs cs with
    | '"' :: rest =>
      match parseStringBody rest with
      | none => .error "SyntaxError: unterminated string in JSON"
      | some (s, r) =>
        match skipWs r with
        | ',' :: r2 =>
          match parseItems fuel r2 with
          | .ok (ss, r3) => .ok (String.mk s :: ss, r3)
          | .error e => .error e
        | ']' :: r2 => .ok ([String.mk s], r2)
        | _ => .error "SyntaxError: expected comma or bracket in JSON"
    | _ => .error "SyntaxError: expected string in JSON"

/-- `JSON.parse` specialized to arrays of strings — the only JSON shape
this code ever stores in `data-tags` / `data-topics` (they are written by
`JSON.stringify` of string arrays in `applyCommonTileAttributes`).  Other
inputs are parse failures, modelling the exception `JSON.parse` (or the
subsequent array/string operations) would raise. -/
def parseJsonStringArray (s : String) : Except String (List String) :=
  match skipWs s.data with
  | '[' :: rest =>
    match skipWs rest with
    | ']' :: r2 =>
      if (skipWs r2).isEmpty then .ok []
      else .error "SyntaxError: unexpected trailing characters in JSON"
    | _ =>
      match parseItems (rest.length + 1) rest with
      | .ok (ss, r3) =>
        if (skipWs r3).isEmpty then .ok ss
        else .error "SyntaxError: unexpected trailing characters in JSON"
      | .error e => .error e
  | _ => .error "SyntaxError: expected array in JSON"

/-- `needle.isPrefix of hay` on character lists (models the position test
inside `String.prototype.includes`). -/
def startsList : List Char → List Char → Bool
  | [], _ => true
  | _ :: _, [] => false
  | a :: as, b :: bs => a == b && startsList as bs

/-- Contiguous-sublist test on character lists. -/
def subList (needle : List Char) : List Char → Bool
  | [] => needle.isEmpty
  | c :: rest => startsList needle (c :: rest) || subList needle rest

/-- JavaScript `s.includes(sub)`: literal substring test. -/
def strIncludes (s sub : String) : Bool := subList sub.data s.data

/-- `String.prototype.localeCompare` modelled as code-point comparison
(the locale-specific collation rules are abstracted; no claim settled here
depends on them, only on the comparator being key-consistent). -/
def cmpChars : List Char → List Char → Int
  | [], [] => 0
  | [], _ :: _ => -1
  | _ :: _, [] => 1
  | a :: as, b :: bs => if a = b then cmpChars as bs else if a < b then -1 else 1

/-- JavaScript `a.localeCompare(b)`. -/
def localeCompare (a b : String) : Int := cmpChars a.data b.data

/-- Subtraction on possibly-`NaN` numbers: any operand `NaN` gives `NaN`. -/
def subNaN (x y : Option Int) : Option Int :=
  match x, y with
  | some a, some b => some (a - b)
  | _, _ => none

/-- The observable state of one rendered tile element in the DOM, as read
by `getTileDataFromElement`, `evaluateFilters` (via `applyFilters`) and
`calculateMasonryLayout`.  `dataset` attributes are optional strings;
`height` is the fractional pixel height from `getBoundingClientRect()`;
`gridRowEnd` holds the span written as `grid-row-end: span N`. -/
structure TileElement where
  elemId : String
  datasetType : Option String
  titleText : Option String
  descriptionText : Option String
  datasetLanguage : Option String
  datasetStars : Option String
  datasetTags : Option String
  datasetTopics : Option String
  datasetPriority : Option String
  styleDisplay : Option String
  datasetFiltered : Option String
  height : ℚ
  gridRowEnd : Int
  deriving DecidableEq, Repr

/-- The record produced by `getTileDataFromElement`.  `stars` and
`priority` are `none` when `parseInt` returned `NaN`. -/
structure TileData where
  id : String
  type : Option String
  title : String
  description : String
  language : Option String
  stars : Option Int
  tags : List String
  topics : List String
  priority : Option Int
  deriving DecidableEq, Repr

/-- `getTileDataFromElement` (filter-system.js).  The two `JSON.parse`
calls are the only fallible steps: a malformed `data-tags` / `data-topics`
attribute raises, which the `Except` error models; everything else
substitutes defaults. -/
def getTileDataFromElement (e : TileElement) : Except String TileData := do
  let tags ← parseJsonStringArray (jsOrStr e.datasetTags "[]")
  let topics ← parseJsonStringArray (jsOrStr e.datasetTopics "[]")
  pure { id := e.elemId
         type := e.datasetType
         title := jsOrStr e.titleText ""
         description := jsOrStr e.descriptionText ""
         language := e.datasetLanguage
         stars := parseIntJS (jsOrStr e.datasetStars "0")
         tags := tags
         topics := topics
         priority := parseIntJS (jsOrStr e.datasetPriority "0") }

/-- The `activeFilters` record of filter-system.js. -/
structure ActiveFilters where
  tags : List String
  search : String
  sort : String
  deriving DecidableEq, Repr

/-- JavaScript `Array.prototype.filter(Boolean)` over an array whose
entries may be `undefined` (the `language` slot): drops `undefined` and
empty strings. -/
def filterTruthy (l : List (Option String)) : List String :=
  l.filterMap fun x =>
    match x with
    | some s => if s = "" then none else some s
    | none => none

/-- The merged, lowercased tag list built inside `evaluateFilters`:
`[...tags, ...topics, language].filter(Boolean).map(t => t.toLowerCase())`. -/
def tileTagList (t : TileData) : List String :=
  (filterTruthy (t.tags.map some ++ t.topics.map some ++ [t.language])).map jsToLower

/-- The searchable text built inside `evaluateFilters`:
`[title, description, ...tags, ...topics].join(' ').toLowerCase()`. -/
def searchableText (t : TileData) : String :=
  jsToLower (String.intercalate " " ([t.title, t.description] ++ t.tags ++ t.topics))

/-- `evaluateFilters` (filter-system.js): the two early-return guards of
the source, in order — tag stage then search stage. -/
def evaluateFilters (af : ActiveFilters) (t : TileData) : Bool :=
  if 0 < af.tags.length &&
      !(af.tags.any fun filterTag => (tileTagList t).contains (jsToLower filterTag)) then
    false
  else if !(af.search == "") && !(strIncludes (searchableText t) af.search) then
    false
  else
    true

/-- The tag stage of `evaluateFilters` in isolation (passes when no tag is
active or the merged tag list meets the active set). -/
def tagStagePass (af : ActiveFilters) (t : TileData) : Bool :=
  !(0 < af.tags.length) || af.tags.any fun filterTag => (tileTagList t).contains (jsToLower filterTag)

/-- The search stage of `evaluateFilters` in isolation. -/
def searchStagePass (af : ActiveFilters) (t : TileData) : Bool :=
  (af.search == "") || strIncludes (searchableText t) af.search

/-- The comparator of `sortTiles` (filter-system.js): a `switch` on the
sort key whose `'priority'` and `default` branches coincide.  The result
is `none` when the JavaScript subtraction would produce `NaN`. -/
def tileCompare (sortBy : String) (a b : TileData) : Option Int :=
  if sortBy = "stars" then subNaN b.stars a.stars
  else if sortBy = "recent" then subNaN b.priority a.priority
  else if sortBy = "alphabetical" then some (localeCompare a.title b.title)
  else subNaN b.priority a.priority

/-- The ordering `Array.prototype.sort` realizes for this comparator:
`a` may stay before `b` when the comparator is `≤ 0`; a `NaN` comparator
result is treated as `0` (ECMAScript SortCompare). -/
abbrev sortRel (sortBy : String) (a b : TileData) : Prop :=
  (tileCompare sortBy a b).getD 0 ≤ 0

/-- `sortTiles` (filter-system.js): `Array.prototype.sort` is stable
(ES2019), so it is modelled by stable insertion sort over `sortRel`;
the sorted elements are re-appended in order, i.e. the sorted list is the
new DOM order. -/
def sortTiles (sortBy : String) (tiles : List TileData) : List TileData :=
  tiles.insertionSort (sortRel sortBy)

/-- A tile record as authored in the YAML sources and consumed by
`mergeData` (data-loader.js); `priority` and `source` are optional fields. -/
structure RawTile where
  title : String
  priority : Option Int
  source : Option String
  deriving DecidableEq, Repr

/-- The spread `{ ...p, source: 'github' }` / `{ ...t, source: 'manual' }`. -/
def setSource (s : String) (t : RawTile) : RawTile := { t with source := some s }

/-- The comparator of `mergeData`: `(b.priority || 0) - (a.priority || 0)`. -/
def mergeCmp (a b : RawTile) : Int := jsOrInt b.priority 0 - jsOrInt a.priority 0

/-- The ordering `Array.prototype.sort` realizes for `mergeCmp`. -/
abbrev mergeRel (a b : RawTile) : Prop := mergeCmp a b ≤ 0

/-- `mergeData` (data-loader.js): annotate the GitHub tiles and the manual
tiles with their provenance, concatenate, and stable-sort by priority
descending. -/
def mergeData (githubProjects manualTiles : Option (List RawTile)) : List RawTile :=
  let allTiles :=
    (jsOrList githubProjects).map (setSource "github") ++
      (jsOrList manualTiles).map (setSource "manual")
  allTiles.insertionSort mergeRel

/-- The call in `main.js`:
`mergeData(githubProjects.projects, manualTiles.tiles, resumeTiles.tiles)`.
`mergeData` declares only two parameters, and JavaScript ignores surplus
arguments, so the third argument is dropped. -/
def mergeDataCall (githubProjects manualTiles resumeTiles : Option (List RawTile)) :
    List RawTile :=
  mergeData githubProjects manualTiles

/-- `parseInt(gapValue) || 20` in `calculateMasonryLayout`. -/
def gapJS (gapValue : String) : Int := jsOrInt (parseIntJS gapValue) 20

/-- Whether `calculateMasonryLayout` treats a tile as hidden:
`tile.style.display === 'none' || tile.dataset.filtered === 'true'`. -/
def isHiddenTile (t : TileElement) : Bool :=
  t.styleDisplay == some "none" || t.datasetFiltered == some "true"

/-- The span `calculateMasonryLayout` assigns to one tile: `0` when the
tile is hidden, otherwise `Math.ceil((height + gap) / rowHeight)` with
`rowHeight = 1`. -/
def masonrySpan (gap : Int) (t : TileElement) : Int :=
  if isHiddenTile t then 0
  else Int.ceil ((t.height + (gap : ℚ)) / (1 : ℚ))

/-- `calculateMasonryLayout` (tile-renderer.js): for every child tile write
`grid-row-end: span N` with the span computed from the tile's rendered
height and the configured `--grid-gap`. -/
def calculateMasonryLayout (gapValue : String) (tiles : List TileElement) :
    List TileElement :=
  tiles.map fun t => { t with gridRowEnd := masonrySpan (gapJS gapValue) t }

/-! ### Generic facts about the stable-sort model

`Array.prototype.sort` with a key-consistent comparator is modelled by
`List.insertionSort`.  The lemmas below are stated for an arbitrary
integer key function `key`, a well-formedness predicate `P` (used to rule
out `NaN` keys) and a relation `r` that agrees with descending key order
on well-formed elements. -/

/-- Inserting a well-formed element into a descending-sorted list of
well-formed elements keeps the list sorted. -/
theorem pairwise_orderedInsert_key {α : Type} {r : α → α → Prop} [DecidableRel r]
    {key : α → Int} {P : α → Prop}
    (hagree : ∀ a b, P a → P b → (r a b ↔ key b ≤ key a))
    (a : α) (ha : P a) (l : List α) (hl : ∀ x ∈ l, P x)
    (hpw : List.Pairwise (fun x y => key y ≤ key x) l) :
    List.Pairwise (fun x y => key y ≤ key x) (l.orderedInsert r a) := by
  induction l with
  | nil => simp
  | cons b bs ih =>
    have hPb : P b := hl b (List.mem_cons_self b bs)
    have hPbs : ∀ x ∈ bs, P x := fun x hx => hl x (List.mem_cons_of_mem b hx)
    rw [List.pairwise_cons] at hpw
    by_cases h : r a b
    · rw [List.orderedInsert, if_pos h]
      have hba : key b ≤ key a := (hagree a b ha hPb).mp h
      refine List.pairwise_cons.mpr ⟨?_, List.pairwise_cons.mpr hpw⟩
      intro x hx
      rcases List.mem_cons.mp hx with rfl | hx
      · exact hba
      · exact le_trans (hpw.1 x hx) hba
    · rw [List.orderedInsert, if_neg h]
      have hab : key a ≤ key b := by
        by_contra hc
        push_neg at hc
        exact h ((hagree a b ha hPb).mpr (le_of_lt hc))
      refine List.pairwise_cons.mpr ⟨?_, ih hPbs hpw.2⟩
      intro x hx
      rcases (List.mem_orderedInsert r).mp hx with rfl | hx
      · exact hab
      · exact hpw.1 x hx

/-- The stable sort of a list of well-formed elements is sorted by
descending key. -/
theorem pairwise_insertionSort_key {α : Type} {r : α → α → Prop} [DecidableRel r]
    {key : α → Int} {P : α → Prop}
    (hagree : ∀ a b, P a → P b → (r a b ↔ key b ≤ key a))
    (l : List α) (hl : ∀ x ∈ l, P x) :
    List.Pairwise (fun x y => key y ≤ key x) (l.insertionSort r) := by
  induction l with
  | nil => simp
  | cons a as ih =>
    rw [List.insertionSort]
    exact pairwise_orderedInsert_key hagree a (hl a (List.mem_cons_self a as))
      (as.insertionSort r)
      (fun x hx => hl x (List.mem_cons_of_mem a ((List.mem_insertionSort r).mp hx)))
      (ih fun x hx => hl x (List.mem_cons_of_mem a hx))

/-- The elements passed over by `orderedInsert` all have strictly larger
keys than the inserted element, so the key-`s` sublist is preserved (with
`a` in front when its key is `s`). -/
theorem filter_orderedInsert_key {α : Type} {r : α → α → Prop} [DecidableRel r]
    {key : α → Int} {P : α → Prop}
    (hagree : ∀ a b, P a → P b → (r a b ↔ key b ≤ key a))
    (s : Int) (a : α) (ha : P a) (l : List α) (hl : ∀ x ∈ l, P x) :
    (l.orderedInsert r a).filter (fun x => key x == s) =
      if key a == s then a :: l.filter (fun x => key x == s)
      else l.filter (fun x => key x == s) := by
  induction l with
  | nil =>
    rw [List.orderedInsert_nil, List.filter]
    by_cases hz : key a = s <;> simp [hz]
  | cons b bs ih =>
    have hPb : P b := hl b (List.mem_cons_self b bs)
    have hPbs : ∀ x ∈ bs, P x := fun x hx => hl x (List.mem_cons_of_mem b hx)
    by_cases h : r a b
    · rw [List.orderedInsert, if_pos h, List.filter_cons]
    · rw [List.orderedInsert, if_neg h]
      have hab : key a < key b := by
        by_contra hc
        push_neg at hc
        exact h ((hagree a b ha hPb).mpr hc)
      rw [List.filter_cons, List.filter_cons, ih hPbs]
      by_cases hz : key a = s
      · have hbz : ¬ key b = s := by omega
        simp [hz, hbz]
      · by_cases hbz : key b = s <;> simp [hz, hbz]

/-- Stability of the stable-sort model: for every key value `s`, the
elements whose key is `s` appear in the sorted list in exactly their
original relative order. -/
theorem filter_insertionSort_key {α : Type} {r : α → α → Prop} [DecidableRel r]
    {key : α → Int} {P : α → Prop}
    (hagree : ∀ a b, P a → P b → (r a b ↔ key b ≤ key a))
    (s : Int) (l : List α) (hl : ∀ x ∈ l, P x) :
    (l.insertionSort r).filter (fun x => key x == s) =
      l.filter (fun x => key x == s) := by
  induction l with
  | nil => rfl
  | cons a as ih =>
    rw [List.insertionSort,
      filter_orderedInsert_key hagree s a (hl a (List.mem_cons_self a as))
        (as.insertionSort r)
        (fun x hx => hl x (List.mem_cons_of_mem a ((List.mem_insertionSort r).mp hx))),
      ih fun x hx => hl x (List.mem_cons_of_mem a hx), List.filter_cons]

/-- `orderedInsert` only looks at the relation, so pointwise-equivalent
relations insert identically. -/
theorem orderedInsert_rel_congr {α : Type} {r₁ r₂ : α → α → Prop}
    [DecidableRel r₁] [DecidableRel r₂]
    (h : ∀ a b, r₁ a b ↔ r₂ a b) (a : α) :
    ∀ l : List α, l.orderedInsert r₁ a = l.orderedInsert r₂ a
  | [] => rfl
  | b :: bs => by
    rw [List.orderedInsert, List.orderedInsert]
    by_cases hab : r₁ a b
    · rw [if_pos hab, if_pos ((h a b).mp hab)]
    · rw [if_neg hab, if_neg (fun hc => hab ((h a b).mpr hc)),
        orderedInsert_rel_congr h a bs]

/-- Pointwise-equivalent relations produce identical stable sorts. -/
theorem insertionSort_rel_congr {α : Type} {r₁ r₂ : α → α → Prop}
    [DecidableRel r₁] [DecidableRel r₂]
    (h : ∀ a b, r₁ a b ↔ r₂ a b) :
    ∀ l : List α, l.insertionSort r₁ = l.insertionSort r₂
  | [] => rfl
  | a :: as => by
    rw [List.insertionSort, List.insertionSort, insertionSort_rel_congr h as,
      orderedInsert_rel_congr h]

/-! ### Agreement of the source comparators with their key orders -/

/-- On tiles whose star count is numeric (not `NaN`), the `'stars'` sort
ordering is exactly descending star order. -/
theorem sortRel_stars_agree :
    ∀ a b : TileData, a.stars.isSome = true → b.stars.isSome = true →
      (sortRel "stars" a b ↔ b.stars.getD 0 ≤ a.stars.getD 0) := by
  intro a b ha hb
  obtain ⟨x, hx⟩ := Option.isSome_iff_exists.mp ha
  obtain ⟨y, hy⟩ := Option.isSome_iff_exists.mp hb
  show (tileCompare "stars" a b).getD 0 ≤ 0 ↔ _
  rw [tileCompare, if_pos rfl, hx, hy]
  show (y - x : Int) ≤ 0 ↔ y ≤ x
  omega

/-- For every sort key other than `'stars'` and `'alphabetical'` (i.e.
`'recent'`, `'priority'` and the `default` branch), the comparator is the
priority comparator. -/
theorem tileCompare_priorityKeys (k : String) (h1 : k ≠ "stars") (h2 : k ≠ "alphabetical")
    (a b : TileData) : tileCompare k a b = subNaN b.priority a.priority := by
  rw [tileCompare, if_neg h1]
  by_cases hr : k = "recent"
  · rw [if_pos hr]
  · rw [if_neg hr, if_neg h2]

/-- On tiles whose priority is numeric, every non-`stars`,
non-`alphabetical` sort key orders by descending priority. -/
theorem sortRel_priorityKeys_agree (k : String) (h1 : k ≠ "stars") (h2 : k ≠ "alphabetical") :
    ∀ a b : TileData, a.priority.isSome = true → b.priority.isSome = true →
      (sortRel k a b ↔ b.priority.getD 0 ≤ a.priority.getD 0) := by
  intro a b ha hb
  obtain ⟨x, hx⟩ := Option.isSome_iff_exists.mp ha
  obtain ⟨y, hy⟩ := Option.isSome_iff_exists.mp hb
  show (tileCompare k a b).getD 0 ≤ 0 ↔ _
  rw [tileCompare_priorityKeys k h1 h2, hx, hy]
  show (y - x : Int) ≤ 0 ↔ y ≤ x
  omega

/-- The `mergeData` comparator orders by descending `priority || 0`. -/
theorem mergeRel_agree :
    ∀ a b : RawTile, True → True →
      (mergeRel a b ↔ jsOrInt b.priority 0 ≤ jsOrInt a.priority 0) := by
  intro a b _ _
  show mergeCmp a b ≤ 0 ↔ _
  rw [mergeCmp]
  omega

/-! ### Concrete tiles used by counterexamples and witnesses -/

/-- A tile with forced-bottom priority `-5` but `100` stars. -/
def tileStarsNeg : TileData :=
  { id := "tile-neg", type := some "project", title := "Neg", description := ""
    language := none, stars := some 100, tags := [], topics := [], priority := some (-5) }

/-- A tile with priority `0` and `0` stars. -/
def tileStarsZero : TileData :=
  { id := "tile-zero", type := some "project", title := "Zero", description := ""
    language := none, stars := some 0, tags := [], topics := [], priority := some 0 }

/-- C1 counterexample: with the `'stars'` sort key selected, `sortTiles`
places the tile with `priority: -5` (and 100 stars) **before** the tile
with `priority: 0` (and 0 stars) — the negative-priority tile is not
forced to the end, refuting the claim for the `stars` sort key. -/
theorem sortTiles_stars_negative_priority_first :
    sortTiles "stars" [tileStarsZero, tileStarsNeg] = [tileStarsNeg, tileStarsZero] ∧
    tileStarsNeg.priority = some (-5) ∧ tileStarsZero.priority = some 0 := by
  refine ⟨?_, rfl, rfl⟩
  rfl

/-- C1 (amended): under the `'priority'` and `'recent'` sort keys (and any
unrecognized key, which falls through to the priority comparator), every
tile with negative priority is placed after all tiles with priority ≥ 0;
under `'stars'` and `'alphabetical'` this forced-bottom placement does not
hold.  Stated for tile lists whose priorities are numeric. -/
theorem sortTiles_priorityKeys_forcedBottom (k : String) (l : List TileData)
    (h1 : k ≠ "stars") (h2 : k ≠ "alphabetical")
    (hl : ∀ t ∈ l, t.priority.isSome = true) :
    List.Pairwise (fun a b => a.priority.getD 0 < 0 → b.priority.getD 0 < 0)
      (sortTiles k l) := by
  have hpw := pairwise_insertionSort_key (sortRel_priorityKeys_agree k h1 h2) l hl
  exact hpw.imp fun hab hneg => by omega

/-- Witness for the amended C1 at the `'priority'` key on a concrete list. -/
theorem sortTiles_priorityKeys_forcedBottom_witness :
    (("priority" : String) ≠ "stars" ∧ ("priority" : String) ≠ "alphabetical" ∧
      (∀ t ∈ [tileStarsNeg, tileStarsZero], t.priority.isSome = true)) ∧
    List.Pairwise (fun a b => a.priority.getD 0 < 0 → b.priority.getD 0 < 0)
      (sortTiles "priority" [tileStarsNeg, tileStarsZero]) :=
  ⟨⟨by decide, by decide, by decide⟩,
    sortTiles_priorityKeys_forcedBottom "priority" [tileStarsNeg, tileStarsZero]
      (by decide) (by decide) (by decide)⟩

/-- C7: sorting with the `'stars'` key orders tiles by star count
descending, and it is stable — for every star count `s`, the tiles with
that count keep exactly their pre-sort relative order.  Stated for tile
lists whose star counts are numeric. -/
theorem sortTiles_stars_sorted_stable (l : List TileData)
    (hl : ∀ t ∈ l, t.stars.isSome = true) :
    List.Pairwise (fun a b => b.stars.getD 0 ≤ a.stars.getD 0) (sortTiles "stars" l) ∧
    ∀ s : Int, (sortTiles "stars" l).filter (fun t => t.stars.getD 0 == s) =
      l.filter (fun t => t.stars.getD 0 == s) :=
  ⟨pairwise_insertionSort_key sortRel_stars_agree l hl,
    fun s => filter_insertionSort_key sortRel_stars_agree s l hl⟩

/-- A tile with 5 stars, appearing first among the 5-star tiles. -/
def tileFiveA : TileData :=
  { id := "tile-5a", type := some "project", title := "FiveA", description := ""
    language := none, stars := some 5, tags := [], topics := [], priority := some 0 }

/-- A second tile with 5 stars, appearing after `tileFiveA`. -/
def tileFiveB : TileData :=
  { id := "tile-5b", type := some "project", title := "FiveB", description := ""
    language := none, stars := some 5, tags := [], topics := [], priority := some 0 }

/-- A tile with 9 stars. -/
def tileNine : TileData :=
  { id := "tile-9", type := some "project", title := "Nine", description := ""
    language := none, stars := some 9, tags := [], topics := [], priority := some 0 }

/-- Witness for C7 on a concrete list with a star-count tie. -/
theorem sortTiles_stars_sorted_stable_witness :
    (∀ t ∈ [tileFiveA, tileNine, tileFiveB], t.stars.isSome = true) ∧
    (List.Pairwise (fun a b => b.stars.getD 0 ≤ a.stars.getD 0)
        (sortTiles "stars" [tileFiveA, tileNine, tileFiveB]) ∧
      ∀ s : Int,
        (sortTiles "stars" [tileFiveA, tileNine, tileFiveB]).filter
            (fun t => t.stars.getD 0 == s) =
          [tileFiveA, tileNine, tileFiveB].filter (fun t => t.stars.getD 0 == s)) :=
  ⟨by decide, sortTiles_stars_sorted_stable [tileFiveA, tileNine, tileFiveB] (by decide)⟩

/-- C8: the `'recent'` sort key reuses the priority comparator, so sorting
with `'recent'` produces exactly the ordering of sorting with
`'priority'`, on every tile list. -/
theorem sortTiles_recent_eq_priority (l : List TileData) :
    sortTiles "recent" l = sortTiles "priority" l := by
  rw [sortTiles, sortTiles]
  refine insertionSort_rel_congr (fun a b => ?_) l
  show (tileCompare "recent" a b).getD 0 ≤ 0 ↔ (tileCompare "priority" a b).getD 0 ≤ 0
  rw [tileCompare_priorityKeys "recent" (by decide) (by decide),
    tileCompare_priorityKeys "priority" (by decide) (by decide)]

/-! ### The filter predicate -/

/-- The two sequential early-return guards of `evaluateFilters` equal the
conjunction of the two stages. -/
theorem evaluateFilters_eq_stages (af : ActiveFilters) (t : TileData) :
    evaluateFilters af t = (tagStagePass af t && searchStagePass af t) := by
  rw [evaluateFilters, tagStagePass, searchStagePass]
  by_cases hl : 0 < af.tags.length <;>
    cases hm : (af.tags.any fun filterTag => (tileTagList t).contains (jsToLower filterTag)) <;>
      cases he : (af.search == "") <;>
        cases hs2 : strIncludes (searchableText t) af.search <;>
          simp [hl, hm, he, hs2]

/-- The tag stage passes iff no tag is active or some active tag occurs
(lowercased) in the tile's merged tag/topic/language list. -/
theorem tagStagePass_iff (af : ActiveFilters) (t : TileData) :
    tagStagePass af t = true ↔
      (af.tags = [] ∨ ∃ ft ∈ af.tags, jsToLower ft ∈ tileTagList t) := by
  rw [tagStagePass]
  simp [List.any_eq_true, List.length_pos, List.contains]

/-- The search stage passes iff the search string is empty or occurs
literally in the tile's searchable text. -/
theorem searchStagePass_iff (af : ActiveFilters) (t : TileData) :
    searchStagePass af t = true ↔
      (af.search = "" ∨ strIncludes (searchableText t) af.search = true) := by
  rw [searchStagePass]
  simp

/-- C2: for every tile and every filter state whose search string is
lowercase (the state invariant `setSearch` establishes), `evaluateFilters`
returns `true` iff (the active tag set is empty, or some active tag —
compared lowercased — occurs in the tile's merged tag/topic/language
list) and (the search string is empty, or it is a lowercase-both-sides
literal substring of the space-joined concatenation of title, description,
tags and topics). -/
theorem evaluateFilters_iff_spec (af : ActiveFilters) (t : TileData)
    (hs : jsToLower af.search = af.search) :
    evaluateFilters af t = true ↔
      ((af.tags = [] ∨ ∃ ft ∈ af.tags, jsToLower ft ∈ tileTagList t) ∧
       (af.search = "" ∨ strIncludes (searchableText t) (jsToLower af.search) = true)) := by
  rw [hs, evaluateFilters_eq_stages, Bool.and_eq_true, tagStagePass_iff, searchStagePass_iff]

/-- The spec's scenario tile `Alpha`. -/
def tileAlpha : TileData :=
  { id := "tile-alpha", type := some "project", title := "Alpha", description := "first one"
    language := some "Go", stars := some 1, tags := ["go"], topics := [], priority := some 5 }

/-- Witness for C2: the filter state `tags=["go"], search="lpha"` against
the `Alpha` tile. -/
theorem evaluateFilters_iff_spec_witness :
    (jsToLower "lpha" = "lpha") ∧
    (evaluateFilters { tags := ["go"], search := "lpha", sort := "priority" } tileAlpha = true ↔
      ((["go"] = ([] : List String) ∨
          ∃ ft ∈ ["go"], jsToLower ft ∈ tileTagList tileAlpha) ∧
       ("lpha" = "" ∨ strIncludes (searchableText tileAlpha) (jsToLower "lpha") = true))) :=
  ⟨by decide, evaluateFilters_iff_spec _ tileAlpha (by decide)⟩

/-- C5: the tag stage and the search stage of the filter are pointwise
predicates, so filtering a tile list by tag-then-search equals filtering
by search-then-tag, and both equal one pass of `evaluateFilters`. -/
theorem filter_tag_search_comm (af : ActiveFilters) (l : List TileData) :
    (l.filter (tagStagePass af)).filter (searchStagePass af) =
      (l.filter (searchStagePass af)).filter (tagStagePass af) ∧
    (l.filter (tagStagePass af)).filter (searchStagePass af) = l.filter (evaluateFilters af) := by
  constructor
  · rw [List.filter_filter, List.filter_filter]
    exact List.filter_congr fun a _ => Bool.and_comm _ _
  · rw [List.filter_filter]
    refine List.filter_congr fun a _ => ?_
    rw [evaluateFilters_eq_stages af a]
    exact Bool.and_comm _ _

/-! ### The masonry layout pass -/

/-- A nonnegative parsed `--grid-gap` (or a parse failure, which falls
back to `20`) yields an effective gap of at least `1`. -/
theorem one_le_gapJS (gapValue : String)
    (hgap : ∀ n : Int, parseIntJS gapValue = some n → 0 ≤ n) : 1 ≤ gapJS gapValue := by
  rw [gapJS]
  cases hp : parseIntJS gapValue with
  | none => simp only [jsOrInt]; norm_num
  | some n =>
    have hn := hgap n hp
    simp only [jsOrInt]
    by_cases h0 : n = 0
    · rw [if_pos h0]; norm_num
    · rw [if_neg h0]; omega

/-- C3: for every child element, the masonry pass assigns span `0` when
the element is hidden/filtered-out, and otherwise assigns
`⌈(height + gap) / rowQuantum⌉` (row quantum `1`), which is at least `1`
for every visible element — including elements of zero rendered height —
whenever the rendered heights are nonnegative and the configured gap does
not parse to a negative number. -/
theorem calculateMasonryLayout_span_spec (gapValue : String) (tiles : List TileElement)
    (hgap : ∀ n : Int, parseIntJS gapValue = some n → 0 ≤ n)
    (hh : ∀ t ∈ tiles, 0 ≤ t.height) :
    ∀ t ∈ calculateMasonryLayout gapValue tiles,
      (isHiddenTile t = true → t.gridRowEnd = 0) ∧
      (isHiddenTile t = false →
        t.gridRowEnd = Int.ceil ((t.height + (gapJS gapValue : ℚ)) / (1 : ℚ)) ∧
          1 ≤ t.gridRowEnd) := by
  have hgap1 : 1 ≤ gapJS gapValue := one_le_gapJS gapValue hgap
  intro t ht
  rw [calculateMasonryLayout, List.mem_map] at ht
  obtain ⟨t0, ht0, rfl⟩ := ht
  have hht : (0 : ℚ) ≤ t0.height := hh t0 ht0
  constructor
  · intro hhid
    have hh0 : isHiddenTile t0 = true := hhid
    show masonrySpan (gapJS gapValue) t0 = 0
    rw [masonrySpan, if_pos hh0]
  · intro hvis
    have hv : isHiddenTile t0 = false := hvis
    have hspan : masonrySpan (gapJS gapValue) t0 =
        Int.ceil ((t0.height + (gapJS gapValue : ℚ)) / (1 : ℚ)) := by
      rw [masonrySpan, hv]
      simp
    refine ⟨hspan, ?_⟩
    show 1 ≤ masonrySpan (gapJS gapValue) t0
    rw [hspan, div_one]
    have hgq : (1 : ℚ) ≤ (gapJS gapValue : ℚ) := by exact_mod_cast hgap1
    have hpos : (0 : ℚ) < t0.height + (gapJS gapValue : ℚ) := by linarith
    have := Int.ceil_pos.mpr hpos
    omega

/-- A hidden (filtered-out) element of rendered height 120. -/
def hiddenElement : TileElement :=
  { elemId := "tile-h", datasetType := some "project", titleText := some "H"
    descriptionText := none, datasetLanguage := none, datasetStars := none
    datasetTags := none, datasetTopics := none, datasetPriority := none
    styleDisplay := some "none", datasetFiltered := some "true", height := 120
    gridRowEnd := 0 }

/-- A visible element whose rendered height is 0 (e.g. mid-transition). -/
def zeroHeightElement : TileElement :=
  { elemId := "tile-z", datasetType := some "project", titleText := some "Z"
    descriptionText := none, datasetLanguage := none, datasetStars := none
    datasetTags := none, datasetTopics := none, datasetPriority := none
    styleDisplay := none, datasetFiltered := none, height := 0
    gridRowEnd := 0 }

/-- Witness for C3: gap `"20"`, one hidden element and one visible
zero-height element. -/
theorem calculateMasonryLayout_span_spec_witness :
    ((∀ n : Int, parseIntJS "20" = some n → 0 ≤ n) ∧
      (∀ t ∈ [hiddenElement, zeroHeightElement], 0 ≤ t.height)) ∧
    ∀ t ∈ calculateMasonryLayout "20" [hiddenElement, zeroHeightElement],
      (isHiddenTile t = true → t.gridRowEnd = 0) ∧
      (isHiddenTile t = false →
        t.gridRowEnd = Int.ceil ((t.height + (gapJS "20" : ℚ)) / (1 : ℚ)) ∧
          1 ≤ t.gridRowEnd) :=
  ⟨⟨fun n hn => by
      rw [show parseIntJS "20" = some 20 from rfl] at hn
      cases hn
      norm_num,
    by decide⟩,
    calculateMasonryLayout_span_spec "20" [hiddenElement, zeroHeightElement]
      (fun n hn => by
        rw [show parseIntJS "20" = some 20 from rfl] at hn
        cases hn
        norm_num)
      (by decide)⟩

/-- C6: the masonry pass is a pure function of the current measurements —
it writes only `gridRowEnd`, which the span computation never reads — so
running it twice in succession with unchanged measurements (same elements,
hidden flags, heights and gap) produces identical spans. -/
theorem calculateMasonryLayout_idempotent (gapValue : String) (tiles : List TileElement) :
    calculateMasonryLayout gapValue (calculateMasonryLayout gapValue tiles) =
      calculateMasonryLayout gapValue tiles := by
  unfold calculateMasonryLayout
  rw [List.map_map]
  congr 1

/-! ### Extraction failures and the missing-priority default -/

/-- A tile element whose stored `data-tags` attribute is not valid JSON. -/
def badElement : TileElement :=
  { elemId := "tile-x", datasetType := some "project", titleText := some "X"
    descriptionText := none, datasetLanguage := none, datasetStars := none
    datasetTags := some "not json", datasetTopics := none, datasetPriority := none
    styleDisplay := none, datasetFiltered := none, height := 100
    gridRowEnd := 0 }

/-- C4 counterexample: reading tile data back from an element whose stored
`data-tags` attribute is the malformed text `not json` fails — the
unguarded `JSON.parse` in `getTileDataFromElement` throws, so the engine
is not failure-free on malformed stored tag attributes. -/
theorem getTileDataFromElement_malformed_throws :
    (getTileDataFromElement badElement).isOk = false ∧
    badElement.datasetTags = some "not json" := by
  refine ⟨?_, rfl⟩
  decide

/-- C4 (amended): `evaluateFilters` and the sort comparators are total —
unknown tag values are inert and search strings are literal text — and
data extraction is the only fallible step: `getTileDataFromElement`
succeeds on every element whose stored `data-tags` and `data-topics`
attributes parse as JSON (or are absent, defaulting to `[]`). -/
theorem getTileDataFromElement_ok_of_wellformed (e : TileElement)
    (htags : (parseJsonStringArray (jsOrStr e.datasetTags "[]")).isOk = true)
    (htopics : (parseJsonStringArray (jsOrStr e.datasetTopics "[]")).isOk = true) :
    (getTileDataFromElement e).isOk = true := by
  rw [getTileDataFromElement]
  rcases h1 : parseJsonStringArray (jsOrStr e.datasetTags "[]") with err | v1
  · rw [h1] at htags
    simp [Except.isOk, Except.toBool] at htags
  rcases h2 : parseJsonStringArray (jsOrStr e.datasetTopics "[]") with err | v2
  · rw [h2] at htopics
    simp [Except.isOk, Except.toBool] at htopics
  rfl

/-- A tile element with a well-formed `data-tags` attribute. -/
def plainElement : TileElement :=
  { elemId := "tile-p", datasetType := some "link", titleText := some "P"
    descriptionText := none, datasetLanguage := none, datasetStars := none
    datasetTags := some "[\"go\"]", datasetTopics := none, datasetPriority := none
    styleDisplay := none, datasetFiltered := none, height := 50
    gridRowEnd := 0 }

/-- Witness for the amended C4 on a concrete well-formed element. -/
theorem getTileDataFromElement_ok_of_wellformed_witness :
    ((parseJsonStringArray (jsOrStr plainElement.datasetTags "[]")).isOk = true ∧
      (parseJsonStringArray (jsOrStr plainElement.datasetTopics "[]")).isOk = true) ∧
    (getTileDataFromElement plainElement).isOk = true :=
  ⟨⟨by decide, by decide⟩,
    getTileDataFromElement_ok_of_wellformed plainElement (by decide) (by decide)⟩

/-- Replace an absent priority field by an explicit `priority: 0`. -/
def setPriorityZero (t : RawTile) : RawTile :=
  match t.priority with
  | none => { t with priority := some 0 }
  | some _ => t

/-- The `mergeData` sort key `priority || 0` does not distinguish an
absent priority from `priority: 0`. -/
theorem key_setPriorityZero (t : RawTile) :
    jsOrInt (setPriorityZero t).priority 0 = jsOrInt t.priority 0 := by
  rcases t with ⟨ti, p, s⟩
  cases p with
  | none => rfl
  | some n => rfl

/-- The `mergeData` ordering is invariant under making absent priorities
explicit zeros. -/
theorem mergeRel_setPriorityZero (a b : RawTile) :
    mergeRel a b ↔ mergeRel (setPriorityZero a) (setPriorityZero b) := by
  show mergeCmp a b ≤ 0 ↔ mergeCmp _ _ ≤ 0
  rw [mergeCmp, mergeCmp, key_setPriorityZero, key_setPriorityZero]

/-- Provenance annotation and priority normalization update disjoint
fields, so they commute. -/
theorem setSource_setPriorityZero (s : String) (t : RawTile) :
    setSource s (setPriorityZero t) = setPriorityZero (setSource s t) := by
  rcases t with ⟨ti, p, src⟩
  cases p with
  | none => rfl
  | some n => rfl

/-- `x || []` commutes with mapping over the optional list. -/
theorem jsOrList_map (f : RawTile → RawTile) (o : Option (List RawTile)) :
    jsOrList (o.map (List.map f)) = (jsOrList o).map f := by
  cases o <;> rfl

/-- C9: a missing priority is treated as `0`, not as absent — (a) an
element with no `data-priority` attribute extracts to exactly the same
tile data as the same element with `data-priority="0"`, so every sort of
extracted tiles orders the two identically; and (b) `mergeData` run on
tiles whose absent priorities are replaced by explicit `priority: 0`
produces the identical ordering (tile for tile) as on the originals. -/
theorem missing_priority_as_zero :
    (∀ e : TileElement, e.datasetPriority = none →
      getTileDataFromElement e = getTileDataFromElement { e with datasetPriority := some "0" }) ∧
    (∀ gh man : Option (List RawTile),
      mergeData (gh.map (List.map setPriorityZero)) (man.map (List.map setPriorityZero)) =
        (mergeData gh man).map setPriorityZero) := by
  constructor
  · intro e he
    rw [getTileDataFromElement, getTileDataFromElement, he]
    rw [show jsOrStr (some "0") "0" = jsOrStr (none : Option String) "0" from by decide]
  · intro gh man
    show (((jsOrList (gh.map (List.map setPriorityZero))).map (setSource "github") ++
        (jsOrList (man.map (List.map setPriorityZero))).map (setSource "manual")).insertionSort
          mergeRel) =
      (((jsOrList gh).map (setSource "github") ++
        (jsOrList man).map (setSource "manual")).insertionSort mergeRel).map setPriorityZero
    rw [jsOrList_map, jsOrList_map]
    have hswap : ∀ (s : String) (l : List RawTile),
        (l.map setPriorityZero).map (setSource s) = (l.map (setSource s)).map setPriorityZero := by
      intro s l
      rw [List.map_map, List.map_map,
        show (setSource s ∘ setPriorityZero) = (setPriorityZero ∘ setSource s) from
          funext fun t => setSource_setPriorityZero s t]
    rw [hswap, hswap, ← List.map_append]
    exact (List.map_insertionSort mergeRel mergeRel setPriorityZero _
      (fun a _ b _ => mergeRel_setPriorityZero a b)).symm

/-- An element without a `data-priority` attribute. -/
def noPriorityElement : TileElement :=
  { elemId := "tile-np", datasetType := some "link", titleText := some "NP"
    descriptionText := none, datasetLanguage := none, datasetStars := none
    datasetTags := none, datasetTopics := none, datasetPriority := none
    styleDisplay := none, datasetFiltered := none, height := 10
    gridRowEnd := 0 }

/-- Witness for C9 at a concrete element and concrete tile lists. -/
theorem missing_priority_as_zero_witness :
    (noPriorityElement.datasetPriority = none ∧
      getTileDataFromElement noPriorityElement =
        getTileDataFromElement { noPriorityElement with datasetPriority := some "0" }) ∧
    mergeData ((some [{ title := "g", priority := none, source := none }]).map
          (List.map setPriorityZero))
        ((some ([] : List RawTile)).map (List.map setPriorityZero)) =
      (mergeData (some [{ title := "g", priority := none, source := none }])
          (some ([] : List RawTile))).map setPriorityZero :=
  ⟨⟨rfl, missing_priority_as_zero.1 noPriorityElement rfl⟩,
    missing_priority_as_zero.2 (some [{ title := "g", priority := none, source := none }])
      (some ([] : List RawTile))⟩

/-- C10: `mergeData` returns exactly the tiles of its first argument
(annotated `source: 'github'`) together with those of its second argument
(annotated `source: 'manual'`), sorted by `priority || 0` descending; the
third argument the caller in `main.js` supplies (the resume tiles) is
ignored, so those tiles never appear in the returned list. -/
theorem mergeData_spec (gh man res : Option (List RawTile)) :
    List.Perm (mergeDataCall gh man res)
        ((jsOrList gh).map (setSource "github") ++ (jsOrList man).map (setSource "manual")) ∧
    List.Pairwise (fun a b => jsOrInt b.priority 0 ≤ jsOrInt a.priority 0)
      (mergeDataCall gh man res) ∧
    ∀ res2 : Option (List RawTile), mergeDataCall gh man res = mergeDataCall gh man res2 := by
  refine ⟨?_, ?_, fun _ => rfl⟩
  · exact List.perm_insertionSort mergeRel _
  · exact pairwise_insertionSort_key (P := fun _ => True) mergeRel_agree _ fun _ _ => trivial

end Site
